import Mathlib

/-!
# Distributed real-time car simulation: orchestrator, engine, transmission and fuel models

A shallow embedding of `server.c`, `engine_client.c`, `transmission_client.c` and
`fuel_client.c`.

Modelling conventions
* C `double` values are rationals (`ℚ`); decimal literals of the source are the
  rationals they denote (`0.1` is `1/10`).  Rounding, infinities and NaN are
  outside the model.
* C `int` values are integers (`Int`); the only integer arithmetic in the
  embedded code is `gear + 1` and `gear - 1` under guards that keep the gear
  between -1 and 5, and the frame counter that is reset above 3, so no wrap-around
  can occur.
* C `bool` is `Bool`; an `int` assigned to a `bool` becomes `true` exactly when
  it is non-zero.
* A blocking `write`/`read` pair on a session is an `Exchange`: the two return
  values and the contents of the reply buffer after the `read` call.
* A C array access is a checked lookup returning `Option`; a function that performs
  one returns `none` when the index is outside the array.
* Clock readings, the key returned by `getch` and the library functions `cos` and
  `sin` are parameters of the functions that use them.
-/

namespace CarSim

/-! ## Message records (`server.c` lines 30-86) and canonical state (`common.h`) -/

/-- The canonical vehicle state `CarShared` of `common.h` (the lock is not data). -/
structure CarShared where
  throttle : ℚ
  brake : ℚ
  steer : ℚ
  reverse : Bool
  speed : ℚ
  gear : Int
  heading : ℚ
  x : ℚ
  y : ℚ
  rpm : ℚ
  power : ℚ
  torque : ℚ
  fuel : ℚ
  shutdown : Bool
  deriving DecidableEq, Repr

/-- Engine request record. -/
structure EngineStateIn where
  speed : ℚ
  fuel : ℚ
  gear : Int
  heading : ℚ
  x : ℚ
  y : ℚ
  deriving DecidableEq, Repr

/-- Engine reply record; `reverse` is a C `int`. -/
structure EngineStateOut where
  throttle : ℚ
  brake : ℚ
  steer : ℚ
  reverse : Int
  speed : ℚ
  heading : ℚ
  x : ℚ
  y : ℚ
  rpm : ℚ
  power : ℚ
  torque : ℚ
  deriving DecidableEq, Repr

/-- Transmission request record. -/
structure TransmissionIn where
  client_id : Int
  speed_mps : ℚ
  gear : Int
  rpm : ℚ
  reverse : Int
  throttle : ℚ
  deriving DecidableEq, Repr

/-- Transmission reply record. -/
structure TransmissionOut where
  client_id : Int
  updated_gear : Int
  deriving DecidableEq, Repr

/-- Fuel request record; `rpm` is a C `int`. -/
structure FuelIn where
  client_id : Int
  throttle : ℚ
  speed : ℚ
  rpm : Int
  power : ℚ
  current_fuel : ℚ
  deriving DecidableEq, Repr

/-- Fuel reply record; the three flags are C `int`s holding 0 or 1. -/
structure FuelOut where
  client_id : Int
  updated_fuel : ℚ
  no_fuel : Int
  low_fuel : Int
  full_fuel : Int
  deriving DecidableEq, Repr

def CLIENT_ENGINE : Int := 1
def CLIENT_TRANSMISSION : Int := 2
def CLIENT_FUEL : Int := 3

/-! ## Orchestrator (`server.c`) -/

/-- State written by `init_shared_memory`: all zero, then fuel 100, gear 0. -/
def init_shared_memory : CarShared :=
  { throttle := 0, brake := 0, steer := 0, reverse := false, speed := 0, gear := 0,
    heading := 0, x := 0, y := 0, rpm := 0, power := 0, torque := 0, fuel := 100,
    shutdown := false }

/-- Conversion of a C `int` to `bool`. -/
def intToBool (i : Int) : Bool := decide (i ≠ 0)

/-- Conversion of a C `bool` to `int`. -/
def boolToInt (b : Bool) : Int := if b then 1 else 0

/-- The cast `(int)d` of a double: truncation toward zero. -/
def truncToInt (d : ℚ) : Int := if 0 ≤ d then Rat.floor d else -(Rat.floor (-d))

/-- Engine request built from the canonical state (`server.c` lines 225-234). -/
def engineRequest (car : CarShared) : EngineStateIn :=
  { speed := car.speed, fuel := car.fuel, gear := car.gear, heading := car.heading,
    x := car.x, y := car.y }

/-- The field assignments of the engine merge (`server.c` lines 241-254). -/
def copyEngine (car : CarShared) (eout : EngineStateOut) : CarShared :=
  { car with
    throttle := eout.throttle, brake := eout.brake, steer := eout.steer,
    reverse := intToBool eout.reverse,
    speed := eout.speed, heading := eout.heading, x := eout.x, y := eout.y,
    rpm := eout.rpm, power := eout.power, torque := eout.torque }

/-- The two speed checks (`server.c` lines 258-259). -/
def checkSpeed (car : CarShared) : CarShared :=
  let car := if car.speed < 0 then { car with speed := 0 } else car
  if car.speed > 60 then { car with speed := 60 } else car

/-- The two rpm checks (`server.c` lines 261-262). -/
def checkRpm (car : CarShared) : CarShared :=
  let car := if car.rpm < 800 then { car with rpm := 800 } else car
  if car.rpm > 6500 then { car with rpm := 6500 } else car

/-- Engine merge followed by the speed and rpm checks (`server.c` lines 241-263). -/
def mergeEngine (car : CarShared) (eout : EngineStateOut) : CarShared :=
  checkRpm (checkSpeed (copyEngine car eout))

/-- Transmission request built from the canonical state (`server.c` lines 266-275). -/
def transmissionRequest (car : CarShared) : TransmissionIn :=
  { client_id := CLIENT_TRANSMISSION, speed_mps := car.speed, gear := car.gear,
    rpm := car.rpm, reverse := boolToInt car.reverse, throttle := car.throttle }

/-- Transmission merge (`server.c` lines 282-284). -/
def mergeTransmission (car : CarShared) (tout : TransmissionOut) : CarShared :=
  { car with gear := tout.updated_gear }

/-- Fuel request built from the canonical state (`server.c` lines 287-296). -/
def fuelRequest (car : CarShared) : FuelIn :=
  { client_id := CLIENT_FUEL, throttle := car.throttle, speed := car.speed,
    rpm := truncToInt car.rpm, power := car.power, current_fuel := car.fuel }

/-- Fuel merge (`server.c` lines 303-305). -/
def mergeFuel (car : CarShared) (fout : FuelOut) : CarShared :=
  { car with fuel := fout.updated_fuel }

/-- Outcome of one `write` followed by one `read` on a session: the value returned
by `write`, the value returned by `read`, and the contents of the reply buffer after
the `read` call (whatever the buffer holds when nothing was received). -/
structure Exchange (Reply : Type) where
  sent : Int
  got : Int
  buf : Reply

/-- The peers of one loop iteration: the value of `sigint_received` at the loop
test, and for each session how the peer answers the request it is sent. -/
structure TickEnv where
  sigint : Bool
  engine : EngineStateIn → Exchange EngineStateOut
  transmission : TransmissionIn → Exchange TransmissionOut
  fuelPeer : FuelIn → Exchange FuelOut

/-- State after the engine exchange and merge of a tick (`server.c` lines 224-263).
The return values of `write` and `read` are not inspected by the source. -/
def afterEngine (env : TickEnv) (car : CarShared) : CarShared :=
  mergeEngine car (env.engine (engineRequest car)).buf

/-- State after the transmission exchange and merge (`server.c` lines 265-284). -/
def afterTransmission (env : TickEnv) (car : CarShared) : CarShared :=
  let car := afterEngine env car
  mergeTransmission car (env.transmission (transmissionRequest car)).buf

/-- State after the fuel exchange and merge (`server.c` lines 286-305). -/
def afterFuel (env : TickEnv) (car : CarShared) : CarShared :=
  let car := afterTransmission env car
  mergeFuel car (env.fuelPeer (fuelRequest car)).buf

/-- One complete body of the tick loop. -/
def tick (env : TickEnv) (car : CarShared) : CarShared := afterFuel env car

/-- The tick loop of `main` (`server.c` lines 216-308) over the iterations described
by the list.  The flag tells whether the loop was left (by the signal test or by the
`shutdown` test); `false` means every described iteration ran to its end and the
loop is still running. -/
def tickLoop : List TickEnv → CarShared → CarShared × Bool
  | [], car => (car, false)
  | env :: rest, car =>
    if env.sigint then (car, true)
    else if car.shutdown then (car, true)
    else tickLoop rest (tick env car)

/-- The part of `main` from the tick loop on: once the loop is left the state is
marked `shutdown` (`server.c` lines 311-314); `none` while the loop is running. -/
def serverMain (envs : List TickEnv) : Option CarShared :=
  match tickLoop envs init_shared_memory with
  | (car, true) => some { car with shutdown := true }
  | (_, false) => none

/-! ## Transmission model (`transmission_client.c`) -/

def MAX_GEAR : Int := 5
def MIN_GEAR : Int := 0
def REVERSE_GEAR : Int := -1
def IDLE_RPM : ℚ := 900
def UPSHIFT_RPM : ℚ := 3500
def DOWNSHIFT_RPM : ℚ := 1500
def SPEED_EPSILON : ℚ := 1 / 10
def GEAR_CHANGE_COOLDOWN : ℚ := 1 / 2
def REVERSE_ENGAGE_SPEED : ℚ := 1 / 5

/-- The two variables of `main` that live across requests
(`transmission_client.c` lines 74-75). -/
structure TransmissionState where
  last_gear_change_time : ℚ
  last_reported_gear : Int
  deriving DecidableEq, Repr

/-- Values of the two variables before the first request. -/
def transmissionInit : TransmissionState :=
  { last_gear_change_time := 0, last_reported_gear := -999 }

/-- One iteration of the request loop (`transmission_client.c` lines 92-152) for a
request that was read successfully: `current_time` is the value of `now_seconds()`,
the result is the reply written and the variables after the iteration.  The reverse
and stationary branches reply and `continue`, so they never reach the log update. -/
def transmissionStep (st : TransmissionState) (current_time : ℚ) (tin : TransmissionIn) :
    TransmissionOut × TransmissionState :=
  if tin.reverse ≠ 0 then
    if |tin.speed_mps| < REVERSE_ENGAGE_SPEED then
      ({ client_id := 2, updated_gear := REVERSE_GEAR }, st)
    else
      ({ client_id := 2, updated_gear := MIN_GEAR }, st)
  else if tin.speed_mps < SPEED_EPSILON then
    if ¬ (tin.reverse ≠ 0) ∧ tin.rpm ≥ IDLE_RPM ∧ tin.throttle > 1 / 20 then
      ({ client_id := 2, updated_gear := 1 }, st)
    else
      ({ client_id := 2, updated_gear := MIN_GEAR }, st)
  else
    let decided : Int × ℚ :=
      if tin.gear < REVERSE_GEAR ∨ tin.gear > MAX_GEAR then
        (MIN_GEAR, st.last_gear_change_time)
      else if current_time - st.last_gear_change_time < GEAR_CHANGE_COOLDOWN then
        (tin.gear, st.last_gear_change_time)
      else if tin.gear > 0 ∧ tin.gear < MAX_GEAR ∧ tin.rpm > UPSHIFT_RPM then
        (tin.gear + 1, current_time)
      else if tin.gear > 1 ∧ tin.rpm < DOWNSHIFT_RPM then
        (tin.gear - 1, current_time)
      else
        (tin.gear, st.last_gear_change_time)
    ({ client_id := 2, updated_gear := decided.1 },
     { last_gear_change_time := decided.2,
       last_reported_gear :=
         if decided.1 ≠ st.last_reported_gear then decided.1 else st.last_reported_gear })

/-- The gear decided for a request. -/
def decidedGear (st : TransmissionState) (current_time : ℚ) (tin : TransmissionIn) : Int :=
  (transmissionStep st current_time tin).1.updated_gear

/-- The cooldown timer after a request. -/
def timerAfter (st : TransmissionState) (current_time : ℚ) (tin : TransmissionIn) : ℚ :=
  (transmissionStep st current_time tin).2.last_gear_change_time

/-- The gears the comment of `common.h` lists: -1, 0, 1..5. -/
def validGear (g : Int) : Prop := g = -1 ∨ g = 0 ∨ g = 1 ∨ g = 2 ∨ g = 3 ∨ g = 4 ∨ g = 5

instance (g : Int) : Decidable (validGear g) := by unfold validGear; infer_instance

/-- One processed request of a run: its timestamp, the request, the gear decided. -/
structure Decision where
  time : ℚ
  request : TransmissionIn
  gear : Int
  deriving DecidableEq, Repr

/-- The request loop over a whole sequence of timestamped requests, starting from
the given variables: the decisions in order. -/
def transmissionRun : TransmissionState → List (ℚ × TransmissionIn) → List Decision
  | _, [] => []
  | st, (t, tin) :: rest =>
    let r := transmissionStep st t tin
    { time := t, request := tin, gear := r.1.updated_gear } :: transmissionRun r.2 rest

/-- The decided gear differs from the received gear. -/
def Decision.changed (d : Decision) : Prop := d.gear ≠ d.request.gear

instance (d : Decision) : Decidable d.changed := by unfold Decision.changed; infer_instance

/-- A gear change made by the shifting logic proper: one decided while reverse is
not requested, the vehicle is not stationary and the received gear is valid. -/
def Decision.shifted (d : Decision) : Prop :=
  d.request.reverse = 0 ∧ SPEED_EPSILON ≤ d.request.speed_mps ∧ validGear d.request.gear ∧
    d.gear ≠ d.request.gear

instance (d : Decision) : Decidable d.shifted := by unfold Decision.shifted; infer_instance

/-! ## Fuel model (`fuel_client.c`) -/

def FUEL_ENERGY_J_PER_L : ℚ := 34000000
def ENGINE_EFFICIENCY : ℚ := 3 / 10
def DT : ℚ := 16 / 1000
def TANK_CAPACITY : ℚ := 100
def LOW_FUEL_THRESHOLD : ℚ := 10

/-- One iteration of the request loop (`fuel_client.c` lines 71-93) for a request
that was read successfully: the reply written. -/
def fuelStep (fin : FuelIn) : FuelOut :=
  let fuel_burn : ℚ :=
    if fin.power > 0 ∧ ENGINE_EFFICIENCY > 0 ∧ fin.current_fuel > 0 then
      (fin.power * DT) / (ENGINE_EFFICIENCY * FUEL_ENERGY_J_PER_L)
    else 0
  let updated_fuel : ℚ := fin.current_fuel - fuel_burn
  let updated_fuel : ℚ := if updated_fuel < 0 then 0 else updated_fuel
  { client_id := CLIENT_FUEL,
    updated_fuel := updated_fuel,
    no_fuel := if updated_fuel ≤ 0 then 1 else 0,
    low_fuel := if updated_fuel > 0 ∧ updated_fuel ≤ LOW_FUEL_THRESHOLD then 1 else 0,
    full_fuel := if updated_fuel ≥ TANK_CAPACITY then 1 else 0 }

/-! ## Ranges of the data model -/

/-- The constant `PI` of `engine_client.c` (line 17). -/
def PI : ℚ := 314159265359 / 100000000000

/-- Heading within the wrapped range (-PI, PI]. -/
def headingWrapped (h : ℚ) : Prop := -PI < h ∧ h ≤ PI

/-- Fuel within the tank range [0, 100]. -/
def fuelInRange (f : ℚ) : Prop := 0 ≤ f ∧ f ≤ 100

/-- The three state invariants other than the speed and rpm clamps. -/
def stateInRange (car : CarShared) : Prop :=
  validGear car.gear ∧ headingWrapped car.heading ∧ fuelInRange car.fuel

/-- Clamp of a value into a closed interval. -/
def clamp (lo hi v : ℚ) : ℚ := max lo (min hi v)

/-! ## Concrete peers used to evaluate the orchestrator -/

/-- A completed exchange: both calls transferred `n` bytes and the buffer holds the
reply. -/
def Exchange.ok (n : Int) (r : Reply) : Exchange Reply := { sent := n, got := n, buf := r }

/-- An exchange whose `read` returned 0 (peer closed): nothing was received and the
buffer holds whatever it held, given here as `stale`. -/
def Exchange.closed (n : Int) (stale : Reply) : Exchange Reply :=
  { sent := n, got := 0, buf := stale }

/-- Peers that answer every request with the given exchanges; no signal pending. -/
def fixedPeers (e : Exchange EngineStateOut) (t : Exchange TransmissionOut)
    (f : Exchange FuelOut) : TickEnv :=
  { sigint := false, engine := fun _ => e, transmission := fun _ => t, fuelPeer := fun _ => f }

/-- An engine reply record with every field in its documented range. -/
def sampleEngineOut : EngineStateOut :=
  { throttle := 1 / 2, brake := 0, steer := 0, reverse := 0, speed := 5, heading := 1,
    x := 2, y := 3, rpm := 2000, power := 1000, torque := 50 }

/-- Replies whose gear, heading and fuel are all outside the documented ranges. -/
def outOfRangePeers : TickEnv :=
  fixedPeers (Exchange.ok 88 { sampleEngineOut with heading := 4 })
    (Exchange.ok 8 { client_id := 2, updated_gear := 7 })
    (Exchange.ok 32 { client_id := 3, updated_fuel := 150, no_fuel := 0, low_fuel := 0,
                      full_fuel := 1 })

/-- Replies whose gear, heading and fuel are inside the documented ranges. -/
def inRangePeers : TickEnv :=
  fixedPeers (Exchange.ok 88 sampleEngineOut)
    (Exchange.ok 8 { client_id := 2, updated_gear := 1 })
    (Exchange.ok 32 { client_id := 3, updated_fuel := 99, no_fuel := 0, low_fuel := 0,
                      full_fuel := 0 })

/-- A tick in which the `read` of the engine reply returns 0 while the reply buffer
holds `sampleEngineOut`; the other two sessions answer normally. -/
def engineClosedPeers : TickEnv :=
  fixedPeers (Exchange.closed 48 sampleEngineOut)
    (Exchange.ok 8 { client_id := 2, updated_gear := 1 })
    (Exchange.ok 32 { client_id := 3, updated_fuel := 99, no_fuel := 0, low_fuel := 0,
                      full_fuel := 0 })

/-- Upshift-eligible request received in neutral: reverse not requested, moving,
gear 0, rpm above the upshift threshold. -/
def neutralUpshiftRequest : TransmissionIn :=
  { client_id := 2, speed_mps := 1, gear := 0, rpm := 4000, reverse := 0, throttle := 1 / 2 }

/-- Upshift-eligible request in third gear at 4000 rpm. -/
def thirdGearRequest : TransmissionIn :=
  { client_id := 2, speed_mps := 20, gear := 3, rpm := 4000, reverse := 0, throttle := 1 / 2 }

/-- Reverse requested at standstill in neutral. -/
def reverseEngageRequest : TransmissionIn :=
  { client_id := 2, speed_mps := 0, gear := 0, rpm := 1000, reverse := 1, throttle := 0 }

/-- Launch condition at standstill, received in reverse gear, reverse no longer
requested. -/
def launchFromReverseRequest : TransmissionIn :=
  { client_id := 2, speed_mps := 0, gear := -1, rpm := 1000, reverse := 0, throttle := 1 / 5 }

/-- Two requests 0.1 s apart: reverse engaged, then launch in first gear. -/
def reverseThenLaunch : List (ℚ × TransmissionIn) :=
  [(10, reverseEngageRequest), (101 / 10, launchFromReverseRequest)]

/-- Two gear changes closer than the cooldown interval are excluded when `P` marks
the gear changes. -/
def cooldownRespected (P : Decision → Prop) (ds : List Decision) : Prop :=
  List.Pairwise (fun a b => P a → P b → a.time + GEAR_CHANGE_COOLDOWN ≤ b.time) ds

/-- Reverse requested while rolling at 1 m/s in third gear. -/
def reverseRollingRequest : TransmissionIn :=
  { client_id := 2, speed_mps := 1, gear := 3, rpm := 2000, reverse := 1, throttle := 0 }

/-- Reverse requested at 0.05 m/s. -/
def reverseCreepRequest : TransmissionIn :=
  { client_id := 2, speed_mps := 1 / 20, gear := 0, rpm := 1000, reverse := 1, throttle := 0 }

/-- Launch request: standstill, rpm 100 above idle, throttle 0.2, neutral. -/
def launchRequest : TransmissionIn :=
  { client_id := 2, speed_mps := 0, gear := 0, rpm := 1000, reverse := 0, throttle := 1 / 5 }

/-- Moving request carrying a gear outside the valid set. -/
def invalidGearRequest : TransmissionIn :=
  { client_id := 2, speed_mps := 10, gear := 9, rpm := 2000, reverse := 0, throttle := 1 / 2 }

/-- Fuel request with a half-full tank at 50 kW. -/
def sampleFuelRequest : FuelIn :=
  { client_id := 3, throttle := 1 / 2, speed := 20, rpm := 3000, power := 50000,
    current_fuel := 50 }

/-! ## Engine model (`engine_client.c`)

`IDLE_RPM` (900) and `PI` are the constants already declared above; the engine
source defines them with the same values. -/

def MAX_RPM : ℚ := 7000
def MAX_FORWARD_SPEED : ℚ := 100
def MAX_REVERSE_SPEED : ℚ := 11 / 2
def ENGINE_OFF_DECEL : ℚ := 3
def BRAKE_DECEL : ℚ := 30
def THROTTLE_INCREMENT : ℚ := 1 / 20
def STEER_INCREMENT : ℚ := 1 / 10
def STEERING_RATE : ℚ := 20 * PI / 180
def CENTERING_RATE : ℚ := 33 * PI / 180
def HEADING_DEADZONE : ℚ := (1 / 2) * PI / 180
def ROLLING_RESISTANCE : ℚ := 100
def DRAG_FORCE : ℚ := 400
def FINAL_DRIVE : ℚ := 7 / 2
def WHEEL_RADIUS : ℚ := 3 / 10
def MAX_ENGINE_POWER : ℚ := 150000

/-- The engine client's own state `CarState` (`engine_client.c` lines 67-91). -/
structure CarState where
  throttle : ℚ
  brake : ℚ
  steer : ℚ
  reverse : Bool
  speed : ℚ
  gear : Int
  heading : ℚ
  x : ℚ
  y : ℚ
  fuel : ℚ
  engine_on : Bool
  rpm : ℚ
  power : ℚ
  torque : ℚ
  actual_power : ℚ
  deriving DecidableEq, Repr

/-- The six-entry table `gear_ratios` (`engine_client.c` line 93). -/
def gear_ratios : List ℚ := [0, 7 / 2, 2, 3 / 2, 1, 4 / 5]

/-- The array access `gear_ratios[gear]` as a checked lookup: `none` when the index
is outside the table (the C access is then undefined). -/
def gearRatioAt (gear : Int) : Option ℚ :=
  if 0 ≤ gear then gear_ratios[gear.toNat]? else none

/-- The rpm derived from speed and gear ratio, then clamped
(`engine_client.c` lines 119-133). -/
def physicsRpm (speed GR : ℚ) : ℚ :=
  let rpm : ℚ :=
    if speed > 1 / 10 then (speed * 60 * GR * FINAL_DRIVE) / (2 * PI * WHEEL_RADIUS)
    else IDLE_RPM
  let rpm : ℚ := if rpm < IDLE_RPM then IDLE_RPM else rpm
  if rpm > MAX_RPM then MAX_RPM else rpm

/-- The local `torque_factor` (`engine_client.c` lines 136-153), peak rpm 3500. -/
def torqueFactor (rpm : ℚ) : ℚ :=
  let torque_factor : ℚ :=
    if rpm ≤ 3500 then rpm / 3500 else (MAX_RPM - rpm) / (MAX_RPM - 3500)
  if torque_factor < 0 then 0 else torque_factor

/-- The power from torque and rpm, clamped (`engine_client.c` lines 159-163). -/
def physicsPower (torque rpm : ℚ) : ℚ :=
  let power : ℚ := (torque * rpm * 2 * PI) / 60
  if power > MAX_ENGINE_POWER then MAX_ENGINE_POWER else power

/-- The function `calculate_physics` (`engine_client.c` lines 106-164); `none` when
the table access is out of bounds. -/
def calculate_physics (_dt : ℚ) (car : CarState) : Option CarState :=
  if ¬ (car.engine_on = true) ∨ car.gear = 0 then
    some { car with rpm := if car.engine_on then IDLE_RPM else 0, torque := 0, power := 0 }
  else
    match gearRatioAt car.gear with
    | none => none
    | some GR =>
      let rpm := physicsRpm car.speed GR
      let torque := 250 * torqueFactor rpm * car.throttle
      some { car with rpm := rpm, torque := torque, power := physicsPower torque rpm }

/-- The block shared by the three decelerating branches of `update_speed`: when the
speed is positive subtract `rate * dt` and floor at zero. -/
def decelerate (rate dt : ℚ) (car : CarState) : CarState :=
  if car.speed > 0 then
    let speed : ℚ := car.speed - rate * dt
    { car with speed := if speed < 0 then 0 else speed }
  else car

/-- The accelerating branch of `update_speed` (`engine_client.c` lines 193-204). -/
def accelerate (dt : ℚ) (car : CarState) : CarState :=
  let acceleration : ℚ := car.throttle * 10
  let speed : ℚ := car.speed + acceleration * dt
  let resistance_decel : ℚ := (ROLLING_RESISTANCE + DRAG_FORCE) * speed / 5000
  let speed : ℚ := speed - resistance_decel * dt
  let max_speed : ℚ := if car.reverse then MAX_REVERSE_SPEED else MAX_FORWARD_SPEED
  { car with speed := if speed > max_speed then max_speed else speed }

/-- The function `update_speed` (`engine_client.c` lines 166-216). -/
def update_speed (dt : ℚ) (car : CarState) : CarState :=
  if ¬ (car.engine_on = true) then
    { decelerate ENGINE_OFF_DECEL dt car with throttle := 0 }
  else if car.brake > 0 then
    decelerate BRAKE_DECEL dt car
  else if car.fuel > 0 ∧ car.throttle > 0 then
    accelerate dt car
  else
    decelerate 2 dt car

/-- The function `update_heading` (`engine_client.c` lines 218-244). -/
def update_heading (dt : ℚ) (car : CarState) : CarState :=
  if |car.speed| > 1 / 10 then
    if car.steer ≠ 0 then
      let heading : ℚ := car.heading + car.steer * STEERING_RATE * dt
      let heading : ℚ := if heading > PI then heading - 2 * PI else heading
      let heading : ℚ := if heading < -PI then heading + 2 * PI else heading
      { car with heading := heading }
    else if |car.heading| > HEADING_DEADZONE then
      let center_dir : ℚ := if car.heading > 0 then -1 else 1
      { car with heading := car.heading + center_dir * CENTERING_RATE * dt }
    else
      { car with heading := 0 }
  else car

/-- The function `update_position` (`engine_client.c` lines 246-252); the library
functions `cos` and `sin` are parameters. -/
def update_position (cosF sinF : ℚ → ℚ) (dt : ℚ) (car : CarState) : CarState :=
  let effective_speed : ℚ := if car.reverse then -car.speed else car.speed
  { car with
    y := car.y + effective_speed * cosF car.heading * dt,
    x := car.x + effective_speed * sinF car.heading * dt }

/-- Return value of `getch` when no key is waiting, and the arrow-key codes, as
defined by the curses header. -/
def ERR : Int := -1
def KEY_DOWN : Int := 258
def KEY_UP : Int := 259
def KEY_LEFT : Int := 260
def KEY_RIGHT : Int := 261

/-- The globals of the engine client (`engine_client.c` lines 95-104) together with
the static `frame_count` of `handle_input`. -/
structure EngineClient where
  car : CarState
  last_key_pressed : Int
  key_w_held : Bool
  key_s_held : Bool
  key_a_held : Bool
  key_d_held : Bool
  running : Bool
  frame_count : Int
  deriving DecidableEq, Repr

/-- The globals when the request loop is entered: everything zero, engine off,
fuel 100 (`engine_client.c` lines 95-104 and 460-461). -/
def engineInit : EngineClient :=
  { car := { throttle := 0, brake := 0, steer := 0, reverse := false, speed := 0, gear := 0,
             heading := 0, x := 0, y := 0, fuel := 100, engine_on := false, rpm := 0,
             power := 0, torque := 0, actual_power := 0 },
    last_key_pressed := 0, key_w_held := false, key_s_held := false, key_a_held := false,
    key_d_held := false, running := true, frame_count := 0 }

/-- The key dispatch of `handle_input` (`engine_client.c` lines 258-311); the
character codes are ASCII. -/
def pressKey (ch : Int) (ec : EngineClient) : EngineClient :=
  if ch ≠ ERR then
    let ec := { ec with last_key_pressed := ch }
    if ch = 101 ∨ ch = 69 then
      let toggled : Bool := !ec.car.engine_on
      if ¬ (toggled = true) then
        { ec with car := { ec.car with engine_on := toggled, throttle := 0 },
                  key_w_held := false }
      else
        { ec with car := { ec.car with engine_on := toggled } }
    else if ch = 114 ∨ ch = 82 then
      if ec.car.speed < 1 / 10 then
        { ec with car := { ec.car with reverse := !ec.car.reverse } }
      else ec
    else if ch = KEY_UP ∨ ch = 119 ∨ ch = 87 then { ec with key_w_held := true }
    else if ch = KEY_DOWN ∨ ch = 115 ∨ ch = 83 then { ec with key_s_held := true }
    else if ch = KEY_LEFT ∨ ch = 97 ∨ ch = 65 then { ec with key_a_held := true }
    else if ch = KEY_RIGHT ∨ ch = 100 ∨ ch = 68 then { ec with key_d_held := true }
    else if ch = 113 ∨ ch = 81 then { ec with running := false }
    else ec
  else ec

/-- Throttle and brake adjustment of `handle_input` (`engine_client.c` lines 313-335). -/
def adjustPedals (ec : EngineClient) : EngineClient :=
  let car := ec.car
  let car : CarState :=
    if ec.key_w_held = true ∧ car.engine_on = true ∧ car.fuel > 0 then
      let throttle : ℚ := car.throttle + THROTTLE_INCREMENT
      { car with throttle := if throttle > 1 then 1 else throttle, brake := 0 }
    else if car.throttle > 0 then
      let throttle : ℚ := car.throttle - THROTTLE_INCREMENT * 2
      { car with throttle := if throttle < 0 then 0 else throttle }
    else car
  let car : CarState :=
    if ec.key_s_held = true then { car with brake := 1, throttle := 0 }
    else { car with brake := 0 }
  { ec with car := car }

/-- Steering adjustment of `handle_input` (`engine_client.c` lines 337-365). -/
def adjustSteer (ec : EngineClient) : EngineClient :=
  let car := ec.car
  let car : CarState :=
    if ec.key_a_held = true ∧ car.speed > 1 / 10 then
      let steer : ℚ := car.steer - STEER_INCREMENT
      { car with steer := if steer < -1 then -1 else steer }
    else car
  let car : CarState :=
    if ec.key_d_held = true ∧ car.speed > 1 / 10 then
      let steer : ℚ := car.steer + STEER_INCREMENT
      { car with steer := if steer > 1 then 1 else steer }
    else car
  let car : CarState :=
    if ¬ (ec.key_a_held = true) ∧ ¬ (ec.key_d_held = true) then
      if car.steer > 1 / 100 then
        let steer : ℚ := car.steer - STEER_INCREMENT * (1 / 2)
        { car with steer := if steer < 0 then 0 else steer }
      else if car.steer < -(1 / 100) then
        let steer : ℚ := car.steer + STEER_INCREMENT * (1 / 2)
        { car with steer := if steer > 0 then 0 else steer }
      else car
    else car
  { ec with car := car }

/-- Frame counting and key release of `handle_input` (`engine_client.c` lines 367-376). -/
def releaseKeys (ec : EngineClient) : EngineClient :=
  let frame_count : Int := ec.frame_count + 1
  if frame_count > 3 then
    { ec with key_w_held := false, key_s_held := false, key_a_held := false,
              key_d_held := false, frame_count := 0 }
  else { ec with frame_count := frame_count }

/-- The function `handle_input` (`engine_client.c` lines 254-377); `ch` is the value
returned by `getch`. -/
def handle_input (ch : Int) (ec : EngineClient) : EngineClient :=
  releaseKeys (adjustSteer (adjustPedals (pressKey ch ec)))

/-- The reply record built from the engine state (`engine_client.c` lines 503-516). -/
def engineReply (car : CarState) : EngineStateOut :=
  { throttle := car.throttle, brake := car.brake, steer := car.steer,
    reverse := if car.reverse then 1 else 0,
    speed := car.speed, heading := car.heading, x := car.x, y := car.y,
    rpm := car.rpm, power := car.power, torque := car.torque }

/-- One iteration of the engine request loop (`engine_client.c` lines 469-518) for a
request that was read successfully: `dt` is the measured time since the previous
iteration, `ch` the value returned by `getch`.  The result is the reply written and
the globals after the iteration, `none` when the table access is out of bounds. -/
def engineStep (cosF sinF : ℚ → ℚ) (ec : EngineClient) (ch : Int) (dt : ℚ)
    (ein : EngineStateIn) : Option (EngineStateOut × EngineClient) :=
  let ec := { ec with car := { ec.car with
    speed := ein.speed, fuel := ein.fuel, gear := ein.gear, heading := ein.heading,
    x := ein.x, y := ein.y } }
  let ec := handle_input ch ec
  match calculate_physics dt (update_speed dt ec.car) with
  | none => none
  | some car =>
    let car := update_position cosF sinF dt (update_heading dt car)
    some (engineReply car, { ec with car := car })

/-! ## Startup registration (`server.c`, `accept_clients`) -/

/-- The three session descriptors of the orchestrator; a negative value means the
role is not registered (`server.c` lines 92-94). -/
structure Registration where
  engine_fd : Int
  trans_fd : Int
  fuel_fd : Int
  deriving DecidableEq, Repr

/-- The descriptors before `accept_clients` runs. -/
def registrationInit : Registration := { engine_fd := -1, trans_fd := -1, fuel_fd := -1 }

/-- What one pass of the accept loop meets: the value returned by `accept`, the
value returned by the `read` of the role tag, and the tag held by `client_id` after
that `read`. -/
structure Connection where
  client_fd : Int
  got : Int
  client_id : Int
  deriving DecidableEq, Repr

/-- The body of the accept loop (`server.c` lines 164-190): the descriptors after
the pass and the descriptor closed in it, if any. -/
def registerClient (reg : Registration) (c : Connection) : Registration × Option Int :=
  if c.client_fd < 0 then (reg, none)
  else if c.got ≤ 0 then (reg, some c.client_fd)
  else if c.client_id = CLIENT_ENGINE then ({ reg with engine_fd := c.client_fd }, none)
  else if c.client_id = CLIENT_TRANSMISSION then ({ reg with trans_fd := c.client_fd }, none)
  else if c.client_id = CLIENT_FUEL then ({ reg with fuel_fd := c.client_fd }, none)
  else (reg, some c.client_fd)

/-- The function `accept_clients` (`server.c` lines 160-191) over the passes
described by the list, each with the value of `sigint_received` at the loop test:
the descriptors at the end and the descriptors closed, in order.  The `break` after
a failed `accept` under a pending signal is the same exit as the next loop test. -/
def accept_clients : Registration → List (Bool × Connection) → Registration × List Int
  | reg, [] => (reg, [])
  | reg, (sigint, c) :: rest =>
    if sigint = true ∨ ¬ (reg.engine_fd < 0 ∨ reg.trans_fd < 0 ∨ reg.fuel_fd < 0) then (reg, [])
    else
      let r := registerClient reg c
      let q := accept_clients r.1 rest
      (q.1, r.2.toList ++ q.2)

/-! ## The three models behind the orchestrator -/

/-- Peers of a tick in which the engine session returns the reply `eout` and the
transmission and fuel sessions are served by the transmission model (variables `ts`,
clock reading `now`) and the fuel model. -/
def replyPeers (eout : EngineStateOut) (ts : TransmissionState) (now : ℚ) : TickEnv :=
  { sigint := false,
    engine := fun _ => Exchange.ok 88 eout,
    transmission := fun tin => Exchange.ok 8 (transmissionStep ts now tin).1,
    fuelPeer := fun fin => Exchange.ok 32 (fuelStep fin) }

/-- One complete orchestrator tick against the three models: the engine reply is the
one the engine model writes for the request built from the canonical state. -/
def systemTick (cosF sinF : ℚ → ℚ) (ec : EngineClient) (ch : Int) (dt : ℚ)
    (ts : TransmissionState) (now : ℚ) (car : CarShared) : Option CarShared :=
  (engineStep cosF sinF ec ch dt (engineRequest car)).map
    (fun r => tick (replyPeers r.1 ts now) car)

/-! ## Concrete inputs for the engine and the registration -/

/-- Value of `cos` used at heading 0. -/
def cosAtZero : ℚ → ℚ := fun _ => 1

/-- Value of `sin` used at heading 0. -/
def sinAtZero : ℚ → ℚ := fun _ => 0

/-- Engine state rolling at 6 m/s in third gear, engine off. -/
def coastingOffState : CarState :=
  { engineInit.car with speed := 6, gear := 3 }

/-- Engine state with the engine on, full throttle, second gear, 10 m/s. -/
def fullThrottleState : CarState :=
  { engineInit.car with engine_on := true, throttle := 1, gear := 2, speed := 10 }

/-- Engine state with the engine on and the reverse gear -1 received. -/
def reverseGearState : CarState :=
  { engineInit.car with engine_on := true, reverse := true, gear := -1 }

/-- Engine globals with the engine switched on and reverse selected, at standstill. -/
def engineOnReverse : EngineClient :=
  { engineInit with car := { engineInit.car with engine_on := true, reverse := true } }

/-- The engine already registered on descriptor 4, the other two roles missing. -/
def engineRegistered : Registration := { engine_fd := 4, trans_fd := -1, fuel_fd := -1 }

/-- A second connection presenting the engine tag 1, accepted on descriptor 5. -/
def duplicateEngine : Connection := { client_fd := 5, got := 4, client_id := 1 }

/-- A connection presenting the unknown tag 9, accepted on descriptor 5. -/
def unknownTag : Connection := { client_fd := 5, got := 4, client_id := 9 }

/-- The reply of an engine that is off and at rest: every field zero. -/
def restReply : EngineStateOut :=
  { throttle := 0, brake := 0, steer := 0, reverse := 0, speed := 0, heading := 0,
    x := 0, y := 0, rpm := 0, power := 0, torque := 0 }

/-! ## Theorems -/

/-- The speed checks replace the speed by its clamp into [0,60]. -/
theorem checkSpeed_eq (car : CarShared) :
    checkSpeed car = { car with speed := clamp 0 60 car.speed } := by
  unfold checkSpeed clamp
  by_cases h1 : car.speed < 0
  · have h2 : ¬ ((0 : ℚ) > 60) := by norm_num
    have h3 : max 0 (min 60 car.speed) = 0 := by
      rw [min_eq_right (by linarith), max_eq_left (le_of_lt h1)]
    simp [h1, h3]
  · by_cases h2 : car.speed > 60
    · have h3 : max 0 (min 60 car.speed) = 60 := by
        rw [min_eq_left (le_of_lt h2)]; norm_num
      simp [h1, h2, h3]
    · have h3 : max 0 (min 60 car.speed) = car.speed := by
        rw [min_eq_right (le_of_not_lt h2), max_eq_right (le_of_not_lt h1)]
      simp [h1, h2, h3]

/-- The rpm checks replace the rpm by its clamp into [800,6500]. -/
theorem checkRpm_eq (car : CarShared) :
    checkRpm car = { car with rpm := clamp 800 6500 car.rpm } := by
  unfold checkRpm clamp
  by_cases h1 : car.rpm < 800
  · have h3 : max 800 (min 6500 car.rpm) = 800 := by
      rw [min_eq_right (by linarith), max_eq_left (le_of_lt h1)]
    have h2 : ¬ ((6500 : ℚ) < 800) := by norm_num
    simp [h1, h2, h3]
  · by_cases h2 : car.rpm > 6500
    · have h3 : max 800 (min 6500 car.rpm) = 6500 := by
        rw [min_eq_left (le_of_lt h2)]; norm_num
      simp [h1, h2, h3]
    · have h3 : max 800 (min 6500 car.rpm) = car.rpm := by
        rw [min_eq_right (le_of_not_lt h2), max_eq_right (le_of_not_lt h1)]
      simp [h1, h2, h3]

/-- Claim C1: for every engine reply and every prior state, after the engine merge
the speed is the reply's speed clamped to [0,60], the rpm is the reply's rpm clamped
to [800,6500], the other eleven merged fields are the reply's values (the reverse
flag being the truth value of the reply's integer), and gear, fuel and shutdown are
those of the prior state. -/
theorem C1_engine_merge (car : CarShared) (eout : EngineStateOut) :
    (mergeEngine car eout).speed = clamp 0 60 eout.speed ∧
    (mergeEngine car eout).rpm = clamp 800 6500 eout.rpm ∧
    (mergeEngine car eout).throttle = eout.throttle ∧
    (mergeEngine car eout).brake = eout.brake ∧
    (mergeEngine car eout).steer = eout.steer ∧
    ((mergeEngine car eout).reverse = true ↔ eout.reverse ≠ 0) ∧
    (mergeEngine car eout).heading = eout.heading ∧
    (mergeEngine car eout).x = eout.x ∧
    (mergeEngine car eout).y = eout.y ∧
    (mergeEngine car eout).power = eout.power ∧
    (mergeEngine car eout).torque = eout.torque ∧
    (mergeEngine car eout).gear = car.gear ∧
    (mergeEngine car eout).fuel = car.fuel ∧
    (mergeEngine car eout).shutdown = car.shutdown := by
  rw [mergeEngine, checkRpm_eq, checkSpeed_eq]
  simp [copyEngine, intToBool]

/-- The gear is valid exactly when it lies between -1 and 5. -/
theorem validGear_iff (g : Int) : validGear g ↔ -1 ≤ g ∧ g ≤ 5 := by
  unfold validGear; omega

/-- Claim C2, counterexample: with replies carrying gear 7, heading 4 and fuel 150,
the state after the tick has exactly these values, none of them in its range. -/
theorem C2_counterexample :
    (afterFuel outOfRangePeers init_shared_memory).gear = 7 ∧
    ¬ validGear (afterFuel outOfRangePeers init_shared_memory).gear ∧
    (afterFuel outOfRangePeers init_shared_memory).heading = 4 ∧
    ¬ headingWrapped (afterFuel outOfRangePeers init_shared_memory).heading ∧
    (afterFuel outOfRangePeers init_shared_memory).fuel = 150 ∧
    ¬ fuelInRange (afterFuel outOfRangePeers init_shared_memory).fuel := by
  have hg : (afterFuel outOfRangePeers init_shared_memory).gear = 7 := rfl
  have hh : (afterFuel outOfRangePeers init_shared_memory).heading = 4 := by
    simp [afterFuel, afterTransmission, afterEngine, mergeFuel, mergeTransmission, mergeEngine,
      checkRpm_eq, checkSpeed_eq, copyEngine, outOfRangePeers, fixedPeers, Exchange.ok]
  have hf : (afterFuel outOfRangePeers init_shared_memory).fuel = 150 := rfl
  refine ⟨hg, ?_, hh, ?_, hf, ?_⟩
  · rw [hg, validGear_iff]; omega
  · rw [hh]; unfold headingWrapped PI; norm_num
  · rw [hf]; unfold fuelInRange; norm_num

/-- Claim C2, amended: the orchestrator copies heading, gear and fuel from the
replies unchanged; so when the prior state has gear, heading and fuel in range and
the three replies carry a wrapped heading, a valid gear and a fuel in [0,100], the
state after each of the three merges of the tick has gear in {-1,..,5}, heading in
(-PI, PI] and fuel in [0,100]. -/
theorem C2_ranges_copied (env : TickEnv) (car : CarShared)
    (hcar : stateInRange car)
    (hh : headingWrapped (env.engine (engineRequest car)).buf.heading)
    (hg : validGear
      (env.transmission (transmissionRequest (afterEngine env car))).buf.updated_gear)
    (hf : fuelInRange
      (env.fuelPeer (fuelRequest (afterTransmission env car))).buf.updated_fuel) :
    ((afterFuel env car).heading = (env.engine (engineRequest car)).buf.heading ∧
     (afterFuel env car).gear =
       (env.transmission (transmissionRequest (afterEngine env car))).buf.updated_gear ∧
     (afterFuel env car).fuel =
       (env.fuelPeer (fuelRequest (afterTransmission env car))).buf.updated_fuel) ∧
    stateInRange (afterEngine env car) ∧
    stateInRange (afterTransmission env car) ∧
    stateInRange (afterFuel env car) := by
  obtain ⟨cg, _, cf⟩ := hcar
  have e1 : (afterEngine env car).heading = (env.engine (engineRequest car)).buf.heading := by
    simp [afterEngine, mergeEngine, checkRpm_eq, checkSpeed_eq, copyEngine]
  have e2 : (afterEngine env car).gear = car.gear := by
    simp [afterEngine, mergeEngine, checkRpm_eq, checkSpeed_eq, copyEngine]
  have e3 : (afterEngine env car).fuel = car.fuel := by
    simp [afterEngine, mergeEngine, checkRpm_eq, checkSpeed_eq, copyEngine]
  have t1 : (afterTransmission env car).heading = (afterEngine env car).heading := rfl
  have t2 : (afterTransmission env car).gear =
      (env.transmission (transmissionRequest (afterEngine env car))).buf.updated_gear := rfl
  have t3 : (afterTransmission env car).fuel = (afterEngine env car).fuel := rfl
  have f1 : (afterFuel env car).heading = (afterTransmission env car).heading := rfl
  have f2 : (afterFuel env car).gear = (afterTransmission env car).gear := rfl
  have f3 : (afterFuel env car).fuel =
      (env.fuelPeer (fuelRequest (afterTransmission env car))).buf.updated_fuel := rfl
  refine ⟨⟨by rw [f1, t1, e1], by rw [f2, t2], f3⟩, ?_, ?_, ?_⟩
  · exact ⟨by rw [e2]; exact cg, by rw [e1]; exact hh, by rw [e3]; exact cf⟩
  · exact ⟨by rw [t2]; exact hg, by rw [t1, e1]; exact hh, by rw [t3, e3]; exact cf⟩
  · exact ⟨by rw [f2, t2]; exact hg, by rw [f1, t1, e1]; exact hh, by rw [f3]; exact hf⟩

/-- Claim C2, witness of the amended statement at `inRangePeers` and the initial
state. -/
theorem C2_ranges_copied_witness :
    stateInRange (afterEngine inRangePeers init_shared_memory) ∧
    stateInRange (afterTransmission inRangePeers init_shared_memory) ∧
    stateInRange (afterFuel inRangePeers init_shared_memory) :=
  (C2_ranges_copied inRangePeers init_shared_memory
    (by norm_num [stateInRange, validGear, headingWrapped, fuelInRange, init_shared_memory, PI])
    (by norm_num [inRangePeers, fixedPeers, Exchange.ok, sampleEngineOut, headingWrapped, PI])
    (by simp [inRangePeers, fixedPeers, Exchange.ok, validGear])
    (by norm_num [inRangePeers, fixedPeers, Exchange.ok, fuelInRange])).2

/-- The body of the tick loop never writes the shutdown flag. -/
theorem tick_shutdown (env : TickEnv) (car : CarShared) :
    (tick env car).shutdown = car.shutdown := by
  simp [tick, afterFuel, afterTransmission, afterEngine, mergeFuel, mergeTransmission,
    mergeEngine, checkRpm_eq, checkSpeed_eq, copyEngine]

/-- Claim C3, the code at a failing input: in a tick whose engine `read` returns 0
the orchestrator still merges the contents of the reply buffer (speed 5, throttle
1/2), still performs and merges the transmission and fuel exchanges (gear 1, fuel
99), leaves the shutdown flag false, and the loop goes on to further ticks instead
of being left. -/
theorem C3_failed_read_is_merged :
    (engineClosedPeers.engine (engineRequest init_shared_memory)).got = 0 ∧
    (tick engineClosedPeers init_shared_memory).speed = 5 ∧
    (tick engineClosedPeers init_shared_memory).throttle = 1 / 2 ∧
    (tick engineClosedPeers init_shared_memory).gear = 1 ∧
    (tick engineClosedPeers init_shared_memory).fuel = 99 ∧
    (tick engineClosedPeers init_shared_memory).shutdown = false ∧
    (tickLoop [engineClosedPeers, engineClosedPeers, engineClosedPeers]
      init_shared_memory).2 = false ∧
    serverMain [engineClosedPeers, engineClosedPeers, engineClosedPeers] = none := by
  have hl : (tickLoop [engineClosedPeers, engineClosedPeers, engineClosedPeers]
      init_shared_memory).2 = false := by
    simp [tickLoop, tick_shutdown, engineClosedPeers, fixedPeers, init_shared_memory]
  refine ⟨rfl, ?_, ?_, rfl, rfl, ?_, hl, ?_⟩
  · norm_num [tick, afterFuel, afterTransmission, afterEngine, mergeFuel, mergeTransmission,
      mergeEngine, checkRpm_eq, checkSpeed_eq, copyEngine, clamp, engineClosedPeers,
      fixedPeers, Exchange.closed, sampleEngineOut]
  · norm_num [tick, afterFuel, afterTransmission, afterEngine, mergeFuel, mergeTransmission,
      mergeEngine, checkRpm_eq, checkSpeed_eq, copyEngine, clamp, engineClosedPeers,
      fixedPeers, Exchange.closed, sampleEngineOut]
  · rw [tick_shutdown]; rfl
  · unfold serverMain
    generalize hr : tickLoop [engineClosedPeers, engineClosedPeers, engineClosedPeers]
      init_shared_memory = r at hl
    obtain ⟨c, b⟩ := r
    simp only at hl
    subst hl
    rfl

/-- The transmission step with the branch conditions of a moving, non-reversing
request with a valid gear already discharged. -/
theorem transmissionStep_moving (st : TransmissionState) (now : ℚ) (tin : TransmissionIn)
    (hrev : tin.reverse = 0) (hsp : SPEED_EPSILON ≤ tin.speed_mps)
    (hg : validGear tin.gear) :
    decidedGear st now tin =
      (if now - st.last_gear_change_time < GEAR_CHANGE_COOLDOWN then tin.gear
       else if tin.gear > 0 ∧ tin.gear < MAX_GEAR ∧ tin.rpm > UPSHIFT_RPM then tin.gear + 1
       else if tin.gear > 1 ∧ tin.rpm < DOWNSHIFT_RPM then tin.gear - 1
       else tin.gear) ∧
    timerAfter st now tin =
      (if now - st.last_gear_change_time < GEAR_CHANGE_COOLDOWN then st.last_gear_change_time
       else if tin.gear > 0 ∧ tin.gear < MAX_GEAR ∧ tin.rpm > UPSHIFT_RPM then now
       else if tin.gear > 1 ∧ tin.rpm < DOWNSHIFT_RPM then now
       else st.last_gear_change_time) := by
  have h1 : ¬ (tin.reverse ≠ 0) := by simp [hrev]
  have h2 : ¬ (tin.speed_mps < SPEED_EPSILON) := not_lt.mpr hsp
  have h3 : ¬ (tin.gear < REVERSE_GEAR ∨ tin.gear > MAX_GEAR) := by
    rw [validGear_iff] at hg
    unfold REVERSE_GEAR MAX_GEAR
    omega
  unfold decidedGear timerAfter transmissionStep
  simp only [h1, h2, h3, if_false]
  constructor <;> split_ifs <;> rfl

/-- Claim C4, counterexample: a request in neutral (gear 0, a valid gear below 5)
with reverse not requested, speed 1, rpm 4000 and the cooldown elapsed is decided as
gear 0, not 1, and the timer is not reset. -/
theorem C4_counterexample :
    neutralUpshiftRequest.reverse = 0 ∧
    SPEED_EPSILON ≤ neutralUpshiftRequest.speed_mps ∧
    validGear neutralUpshiftRequest.gear ∧
    neutralUpshiftRequest.gear < MAX_GEAR ∧
    neutralUpshiftRequest.rpm > UPSHIFT_RPM ∧
    GEAR_CHANGE_COOLDOWN ≤ 10 - transmissionInit.last_gear_change_time ∧
    decidedGear transmissionInit 10 neutralUpshiftRequest = 0 ∧
    decidedGear transmissionInit 10 neutralUpshiftRequest ≠ neutralUpshiftRequest.gear + 1 ∧
    timerAfter transmissionInit 10 neutralUpshiftRequest ≠ 10 := by
  have hrev : neutralUpshiftRequest.reverse = 0 := rfl
  have hsp : SPEED_EPSILON ≤ neutralUpshiftRequest.speed_mps := by
    norm_num [SPEED_EPSILON, neutralUpshiftRequest]
  have hg : validGear neutralUpshiftRequest.gear := by
    simp [validGear, neutralUpshiftRequest]
  obtain ⟨hd, ht⟩ := transmissionStep_moving transmissionInit 10 neutralUpshiftRequest hrev hsp hg
  have hd0 : decidedGear transmissionInit 10 neutralUpshiftRequest = 0 := by
    rw [hd]
    norm_num [GEAR_CHANGE_COOLDOWN, MAX_GEAR, UPSHIFT_RPM, DOWNSHIFT_RPM, transmissionInit,
      neutralUpshiftRequest]
  have ht0 : timerAfter transmissionInit 10 neutralUpshiftRequest = 0 := by
    rw [ht]
    norm_num [GEAR_CHANGE_COOLDOWN, MAX_GEAR, UPSHIFT_RPM, DOWNSHIFT_RPM, transmissionInit,
      neutralUpshiftRequest]
  refine ⟨hrev, hsp, hg, ?_, ?_, ?_, hd0, ?_, ?_⟩
  · norm_num [MAX_GEAR, neutralUpshiftRequest]
  · norm_num [UPSHIFT_RPM, neutralUpshiftRequest]
  · norm_num [GEAR_CHANGE_COOLDOWN, transmissionInit]
  · rw [hd0]; norm_num [neutralUpshiftRequest]
  · rw [ht0]; norm_num

/-- Claim C4, amended: for every request with reverse not requested, speed at or
above 0.1, a received forward gear in {1,2,3,4}, rpm above 3500 and at least 0.5 s
elapsed since the last gear change, the decided gear is the received gear + 1 and
the cooldown timer is reset to the current time. -/
theorem C4_upshift (st : TransmissionState) (now : ℚ) (tin : TransmissionIn)
    (hrev : tin.reverse = 0) (hsp : SPEED_EPSILON ≤ tin.speed_mps)
    (hg : 1 ≤ tin.gear ∧ tin.gear ≤ 4) (hrpm : tin.rpm > UPSHIFT_RPM)
    (hcd : GEAR_CHANGE_COOLDOWN ≤ now - st.last_gear_change_time) :
    decidedGear st now tin = tin.gear + 1 ∧ timerAfter st now tin = now := by
  have hv : validGear tin.gear := by rw [validGear_iff]; omega
  obtain ⟨hd, ht⟩ := transmissionStep_moving st now tin hrev hsp hv
  have h1 : ¬ (now - st.last_gear_change_time < GEAR_CHANGE_COOLDOWN) := not_lt.mpr hcd
  have h2 : tin.gear > 0 ∧ tin.gear < MAX_GEAR ∧ tin.rpm > UPSHIFT_RPM :=
    ⟨by omega, by unfold MAX_GEAR; omega, hrpm⟩
  rw [hd, ht]
  simp only [h1, h2, if_false, if_true, and_self]

/-- Claim C4, witness: gear 3 at 4000 rpm with the cooldown elapsed gives gear 4. -/
theorem C4_upshift_witness :
    decidedGear transmissionInit 10 thirdGearRequest = 4 ∧
    timerAfter transmissionInit 10 thirdGearRequest = 10 :=
  C4_upshift transmissionInit 10 thirdGearRequest rfl
    (by norm_num [SPEED_EPSILON, thirdGearRequest])
    (by simp [thirdGearRequest])
    (by norm_num [UPSHIFT_RPM, thirdGearRequest])
    (by norm_num [GEAR_CHANGE_COOLDOWN, transmissionInit])

/-- The cooldown timer never moves backwards: it is only reset to a time at least
the cooldown interval after its previous value. -/
theorem timerAfter_ge (st : TransmissionState) (now : ℚ) (tin : TransmissionIn) :
    st.last_gear_change_time ≤ timerAfter st now tin := by
  unfold timerAfter transmissionStep
  have hc : (0 : ℚ) ≤ GEAR_CHANGE_COOLDOWN := by norm_num [GEAR_CHANGE_COOLDOWN]
  split_ifs <;> simp only [le_refl] <;> linarith

/-- A gear change by the shifting logic happens only with the cooldown elapsed, and
resets the timer to the time of the request. -/
theorem shifted_step (st : TransmissionState) (now : ℚ) (tin : TransmissionIn)
    (hrev : tin.reverse = 0) (hsp : SPEED_EPSILON ≤ tin.speed_mps)
    (hg : validGear tin.gear) (hch : decidedGear st now tin ≠ tin.gear) :
    st.last_gear_change_time + GEAR_CHANGE_COOLDOWN ≤ now ∧ timerAfter st now tin = now := by
  obtain ⟨hd, ht⟩ := transmissionStep_moving st now tin hrev hsp hg
  rw [hd] at hch
  rw [ht]
  split_ifs at hch ⊢ with h1 h2 h3
  · exact absurd rfl hch
  · exact ⟨by linarith, rfl⟩
  · exact ⟨by linarith, rfl⟩
  · exact absurd rfl hch

/-- Every gear change by the shifting logic in a run happens at least the cooldown
interval after the timer value the run started with. -/
theorem run_shift_after (reqs : List (ℚ × TransmissionIn)) :
    ∀ (st : TransmissionState) (d : Decision), d ∈ transmissionRun st reqs → d.shifted →
      st.last_gear_change_time + GEAR_CHANGE_COOLDOWN ≤ d.time := by
  induction reqs with
  | nil => intro st d hd; simp [transmissionRun] at hd
  | cons r rest ih =>
    intro st d hd hs
    obtain ⟨t, tin⟩ := r
    simp only [transmissionRun, List.mem_cons] at hd
    rcases hd with hd | hd
    · subst hd
      obtain ⟨h1, h2, h3, h4⟩ := hs
      exact (shifted_step st t tin h1 h2 h3 h4).1
    · have h := ih (transmissionStep st t tin).2 d hd hs
      have hm := timerAfter_ge st t tin
      unfold timerAfter at hm
      linarith

/-- Claim C5, counterexample: reverse engaged at t = 10 (gear 0 decided as -1) and a
launch at t = 10.1 (gear -1 decided as 1) are two requests with non-decreasing
timestamps whose decided gear differs from the received gear, only 0.1 s apart. -/
theorem C5_counterexample :
    List.Pairwise (fun a b => a ≤ b) (reverseThenLaunch.map Prod.fst) ∧
    ¬ cooldownRespected Decision.changed (transmissionRun transmissionInit reverseThenLaunch) := by
  have hrun : transmissionRun transmissionInit reverseThenLaunch =
      [{ time := 10, request := reverseEngageRequest, gear := -1 },
       { time := 101 / 10, request := launchFromReverseRequest, gear := 1 }] := by
    norm_num [transmissionRun, transmissionStep, reverseThenLaunch, reverseEngageRequest,
      launchFromReverseRequest, transmissionInit, REVERSE_ENGAGE_SPEED, SPEED_EPSILON,
      IDLE_RPM, REVERSE_GEAR]
  constructor
  · norm_num [reverseThenLaunch]
  · rw [hrun]
    norm_num [cooldownRespected, Decision.changed, GEAR_CHANGE_COOLDOWN, reverseEngageRequest,
      launchFromReverseRequest]

/-- Claim C5, amended: in the run of the transmission model over every sequence of
timestamped requests (whatever the timestamps and the starting timer), any two
requests whose gear was changed by the shifting logic (reverse not requested, speed
at least 0.1, received gear valid, decided gear different from the received gear)
are at least the cooldown interval 0.5 s apart. -/
theorem C5_cooldown_window (st : TransmissionState) (reqs : List (ℚ × TransmissionIn)) :
    cooldownRespected Decision.shifted (transmissionRun st reqs) := by
  unfold cooldownRespected
  induction reqs generalizing st with
  | nil => simp [transmissionRun]
  | cons r rest ih =>
    obtain ⟨t, tin⟩ := r
    simp only [transmissionRun, List.pairwise_cons]
    refine ⟨?_, ih _⟩
    intro b hb ha hbs
    obtain ⟨h1, h2, h3, h4⟩ := ha
    have hreset := (shifted_step st t tin h1 h2 h3 h4).2
    have h := run_shift_after rest (transmissionStep st t tin).2 b hb hbs
    unfold timerAfter at hreset
    rw [hreset] at h
    exact h

/-- Claim C6: two consecutive upshift-eligible requests (reverse not requested,
speed at least 0.1, rpm above 3500) at times t1 < t2 less than 0.5 s apart, the first
carrying a gear g in {1,2,3,4} with the cooldown elapsed and the second carrying
g + 1: the first is decided as g + 1, the second is decided as g + 1 again, and the
cooldown timer after the second still holds t1. -/
theorem C6_hysteresis (st : TransmissionState) (t1 t2 : ℚ) (r1 r2 : TransmissionIn) (g : Int)
    (_ht : t1 < t2) (hclose : t2 - t1 < GEAR_CHANGE_COOLDOWN)
    (hrev1 : r1.reverse = 0) (hsp1 : SPEED_EPSILON ≤ r1.speed_mps) (hrpm1 : r1.rpm > UPSHIFT_RPM)
    (hrev2 : r2.reverse = 0) (hsp2 : SPEED_EPSILON ≤ r2.speed_mps) (_hrpm2 : r2.rpm > UPSHIFT_RPM)
    (hg : 1 ≤ g ∧ g ≤ 4) (hg1 : r1.gear = g)
    (hcd : GEAR_CHANGE_COOLDOWN ≤ t1 - st.last_gear_change_time)
    (hg2 : r2.gear = g + 1) :
    decidedGear st t1 r1 = g + 1 ∧
    decidedGear (transmissionStep st t1 r1).2 t2 r2 = g + 1 ∧
    timerAfter (transmissionStep st t1 r1).2 t2 r2 = t1 := by
  have hv1 : validGear r1.gear := by rw [validGear_iff]; omega
  have hv2 : validGear r2.gear := by rw [validGear_iff]; omega
  obtain ⟨hd1, hT1⟩ := transmissionStep_moving st t1 r1 hrev1 hsp1 hv1
  have c1 : ¬ (t1 - st.last_gear_change_time < GEAR_CHANGE_COOLDOWN) := not_lt.mpr hcd
  have c2 : r1.gear > 0 ∧ r1.gear < MAX_GEAR ∧ r1.rpm > UPSHIFT_RPM :=
    ⟨by omega, by unfold MAX_GEAR; omega, hrpm1⟩
  simp only [c1, c2, if_false, if_true, and_self] at hd1 hT1
  obtain ⟨hd2, hT2⟩ :=
    transmissionStep_moving (transmissionStep st t1 r1).2 t2 r2 hrev2 hsp2 hv2
  have hlast : (transmissionStep st t1 r1).2.last_gear_change_time = t1 := hT1
  have c3 : t2 - (transmissionStep st t1 r1).2.last_gear_change_time < GEAR_CHANGE_COOLDOWN := by
    rw [hlast]; exact hclose
  simp only [c3, if_true] at hd2 hT2
  exact ⟨by rw [hd1, hg1], by rw [hd2, hg2], by rw [hT2, hlast]⟩

/-- Claim C6, witness: third gear at t = 10 is decided as 4; the same request with
gear 4 at t = 10.1 is decided as 4 and the timer still holds 10. -/
theorem C6_hysteresis_witness :
    decidedGear transmissionInit 10 thirdGearRequest = 3 + 1 ∧
    decidedGear (transmissionStep transmissionInit 10 thirdGearRequest).2 (101 / 10)
      { thirdGearRequest with gear := 4 } = 3 + 1 ∧
    timerAfter (transmissionStep transmissionInit 10 thirdGearRequest).2 (101 / 10)
      { thirdGearRequest with gear := 4 } = 10 :=
  C6_hysteresis transmissionInit 10 (101 / 10) thirdGearRequest
    { thirdGearRequest with gear := 4 } 3
    (by norm_num) (by norm_num [GEAR_CHANGE_COOLDOWN])
    rfl (by norm_num [SPEED_EPSILON, thirdGearRequest])
    (by norm_num [UPSHIFT_RPM, thirdGearRequest])
    rfl (by norm_num [SPEED_EPSILON, thirdGearRequest])
    (by norm_num [UPSHIFT_RPM, thirdGearRequest])
    (by omega) rfl (by norm_num [GEAR_CHANGE_COOLDOWN, transmissionInit]) rfl

/-- Claim C7: for every request with reverse requested, whatever the received gear,
rpm, throttle and timer, the decided gear is -1 when |speed| < 0.2 and 0 otherwise,
and the cooldown timer is left unchanged. -/
theorem C7_reverse_precedence (st : TransmissionState) (now : ℚ) (tin : TransmissionIn)
    (hrev : tin.reverse ≠ 0) :
    decidedGear st now tin = (if |tin.speed_mps| < 1 / 5 then -1 else 0) ∧
    timerAfter st now tin = st.last_gear_change_time := by
  unfold decidedGear timerAfter transmissionStep
  simp only [hrev, if_true, ne_eq, not_false_eq_true]
  unfold REVERSE_ENGAGE_SPEED REVERSE_GEAR MIN_GEAR
  split_ifs <;> exact ⟨rfl, rfl⟩

/-- Claim C7, witness: reverse requested at 0.05 m/s gives gear -1, and reverse
requested at 1.0 m/s in third gear gives neutral; the timer keeps its value 0. -/
theorem C7_reverse_precedence_witness :
    (decidedGear transmissionInit 10 reverseCreepRequest = -1 ∧
     timerAfter transmissionInit 10 reverseCreepRequest = 0) ∧
    (decidedGear transmissionInit 10 reverseRollingRequest = 0 ∧
     timerAfter transmissionInit 10 reverseRollingRequest = 0) := by
  have h1 := C7_reverse_precedence transmissionInit 10 reverseCreepRequest
    (by simp [reverseCreepRequest])
  have h2 := C7_reverse_precedence transmissionInit 10 reverseRollingRequest
    (by simp [reverseRollingRequest])
  have hs1 : |reverseCreepRequest.speed_mps| < 1 / 5 := by
    norm_num [reverseCreepRequest, abs_of_pos]
  have hs2 : ¬ (|reverseRollingRequest.speed_mps| < 1 / 5) := by
    norm_num [reverseRollingRequest]
  rw [if_pos hs1] at h1
  rw [if_neg hs2] at h2
  exact ⟨h1, h2⟩

/-- Claim C8: for every request with reverse not requested and speed below 0.1,
whatever the received gear and timer, the decided gear is 1 when rpm is at least 900
and throttle exceeds 0.05, and 0 otherwise (so it is 1 exactly under that condition);
the timer is left unchanged. -/
theorem C8_stationary_launch (st : TransmissionState) (now : ℚ) (tin : TransmissionIn)
    (hrev : tin.reverse = 0) (hsp : tin.speed_mps < 1 / 10) :
    decidedGear st now tin = (if 900 ≤ tin.rpm ∧ tin.throttle > 1 / 20 then 1 else 0) ∧
    (decidedGear st now tin = 1 ↔ 900 ≤ tin.rpm ∧ tin.throttle > 1 / 20) ∧
    timerAfter st now tin = st.last_gear_change_time := by
  have h1 : ¬ (tin.reverse ≠ 0) := by simp [hrev]
  have h2 : tin.speed_mps < SPEED_EPSILON := hsp
  have hd : decidedGear st now tin = (if 900 ≤ tin.rpm ∧ tin.throttle > 1 / 20 then 1 else 0) := by
    unfold decidedGear transmissionStep
    simp only [h1, h2, if_false, if_true, not_false_eq_true, true_and]
    unfold IDLE_RPM MIN_GEAR
    split_ifs <;> rfl
  refine ⟨hd, ?_, ?_⟩
  · rw [hd]
    split_ifs with h
    · exact ⟨fun _ => h, fun _ => rfl⟩
    · exact ⟨fun h0 => absurd h0 (by norm_num), fun h0 => absurd h0 h⟩
  · unfold timerAfter transmissionStep
    simp only [h1, h2, if_false, if_true]
    split_ifs <;> rfl

/-- Claim C8, witness: speed 0, rpm 1000 (idle + 100), throttle 0.2, gear 0 gives
gear 1. -/
theorem C8_stationary_launch_witness : decidedGear transmissionInit 10 launchRequest = 1 :=
  ((C8_stationary_launch transmissionInit 10 launchRequest rfl
    (by norm_num [launchRequest])).2.1).mpr (by norm_num [launchRequest])

/-- Claim C9: for every request, timer value and time, the decided gear lies in
{-1,0,1,2,3,4,5}; and with reverse not requested, speed at least 0.1 and a received
gear outside the valid set, the decided gear is 0. -/
theorem C9_normalized_decision (st : TransmissionState) (now : ℚ) (tin : TransmissionIn) :
    validGear (decidedGear st now tin) ∧
    (tin.reverse = 0 → SPEED_EPSILON ≤ tin.speed_mps → ¬ validGear tin.gear →
      decidedGear st now tin = 0) := by
  constructor
  · rw [validGear_iff]
    unfold decidedGear transmissionStep REVERSE_GEAR MIN_GEAR MAX_GEAR
    split_ifs <;> simp only <;> omega
  · intro hrev hsp hg
    have h1 : ¬ (tin.reverse ≠ 0) := by simp [hrev]
    have h2 : ¬ (tin.speed_mps < SPEED_EPSILON) := not_lt.mpr hsp
    have h3 : tin.gear < REVERSE_GEAR ∨ tin.gear > MAX_GEAR := by
      rw [validGear_iff] at hg
      unfold REVERSE_GEAR MAX_GEAR
      omega
    unfold decidedGear transmissionStep
    simp only [h1, h2, h3, if_false, if_true]
    rfl

/-- Claim C9, witness: a moving request carrying gear 9 is decided as neutral. -/
theorem C9_normalized_decision_witness :
    decidedGear transmissionInit 10 invalidGearRequest = 0 :=
  (C9_normalized_decision transmissionInit 10 invalidGearRequest).2 rfl
    (by norm_num [SPEED_EPSILON, invalidGearRequest])
    (by rw [validGear_iff]; simp [invalidGearRequest])

/-- The fuel written in the reply is the received fuel minus the burn, floored at 0. -/
theorem fuelStep_updated (fin : FuelIn) :
    (fuelStep fin).updated_fuel =
      max 0 (fin.current_fuel -
        (if fin.power > 0 ∧ ENGINE_EFFICIENCY > 0 ∧ fin.current_fuel > 0 then
          (fin.power * DT) / (ENGINE_EFFICIENCY * FUEL_ENERGY_J_PER_L) else 0)) := by
  unfold fuelStep
  simp only
  split_ifs with h1 h2 h2
  · exact (max_eq_left (le_of_lt h2)).symm
  · exact (max_eq_right (le_of_not_lt h2)).symm
  · exact (max_eq_left (le_of_lt h2)).symm
  · exact (max_eq_right (le_of_not_lt h2)).symm

/-- Claim C10: for every fuel request with current fuel in [0,100] and every power,
the updated fuel is in [0,100] and not greater than the current fuel; no_fuel is set
iff the updated fuel is 0, low_fuel iff it is in (0,10], full_fuel iff it is at least
100; and full_fuel is never set together with no_fuel or low_fuel. -/
theorem C10_fuel_range_flags (fin : FuelIn)
    (hlo : 0 ≤ fin.current_fuel) (hhi : fin.current_fuel ≤ TANK_CAPACITY) :
    (0 ≤ (fuelStep fin).updated_fuel ∧ (fuelStep fin).updated_fuel ≤ TANK_CAPACITY) ∧
    (fuelStep fin).updated_fuel ≤ fin.current_fuel ∧
    ((fuelStep fin).no_fuel ≠ 0 ↔ (fuelStep fin).updated_fuel = 0) ∧
    ((fuelStep fin).low_fuel ≠ 0 ↔
      0 < (fuelStep fin).updated_fuel ∧ (fuelStep fin).updated_fuel ≤ LOW_FUEL_THRESHOLD) ∧
    ((fuelStep fin).full_fuel ≠ 0 ↔ (fuelStep fin).updated_fuel ≥ TANK_CAPACITY) ∧
    ¬ ((fuelStep fin).full_fuel ≠ 0 ∧ (fuelStep fin).no_fuel ≠ 0) ∧
    ¬ ((fuelStep fin).full_fuel ≠ 0 ∧ (fuelStep fin).low_fuel ≠ 0) := by
  have hnn : 0 ≤ (fuelStep fin).updated_fuel := by
    rw [fuelStep_updated]; exact le_max_left _ _
  have hle : (fuelStep fin).updated_fuel ≤ fin.current_fuel := by
    rw [fuelStep_updated]
    apply max_le hlo
    split_ifs with h
    · have hb : 0 ≤ (fin.power * DT) / (ENGINE_EFFICIENCY * FUEL_ENERGY_J_PER_L) := by
        apply div_nonneg
        · exact mul_nonneg (le_of_lt h.1) (by norm_num [DT])
        · norm_num [ENGINE_EFFICIENCY, FUEL_ENERGY_J_PER_L]
      linarith
    · linarith
  have hno : (fuelStep fin).no_fuel ≠ 0 ↔ (fuelStep fin).updated_fuel = 0 := by
    have e : (fuelStep fin).no_fuel = if (fuelStep fin).updated_fuel ≤ 0 then 1 else 0 := rfl
    rw [e]
    split_ifs with h
    · exact ⟨fun _ => le_antisymm h hnn, fun _ => by norm_num⟩
    · exact ⟨fun h0 => absurd rfl h0, fun h0 => absurd (le_of_eq h0) h⟩
  have hlow : (fuelStep fin).low_fuel ≠ 0 ↔
      0 < (fuelStep fin).updated_fuel ∧ (fuelStep fin).updated_fuel ≤ LOW_FUEL_THRESHOLD := by
    have e : (fuelStep fin).low_fuel =
        if (fuelStep fin).updated_fuel > 0 ∧ (fuelStep fin).updated_fuel ≤ LOW_FUEL_THRESHOLD
        then 1 else 0 := rfl
    rw [e]
    split_ifs with h
    · exact ⟨fun _ => h, fun _ => by norm_num⟩
    · exact ⟨fun h0 => absurd rfl h0, fun h0 => absurd h0 h⟩
  have hfull : (fuelStep fin).full_fuel ≠ 0 ↔ (fuelStep fin).updated_fuel ≥ TANK_CAPACITY := by
    have e : (fuelStep fin).full_fuel =
        if (fuelStep fin).updated_fuel ≥ TANK_CAPACITY then 1 else 0 := rfl
    rw [e]
    split_ifs with h
    · exact ⟨fun _ => h, fun _ => by norm_num⟩
    · exact ⟨fun h0 => absurd rfl h0, fun h0 => absurd h0 h⟩
  refine ⟨⟨hnn, le_trans hle hhi⟩, hle, hno, hlow, hfull, ?_, ?_⟩
  · rintro ⟨h1, h2⟩
    rw [hfull] at h1
    rw [hno] at h2
    rw [h2] at h1
    norm_num [TANK_CAPACITY] at h1
  · rintro ⟨h1, h2⟩
    rw [hfull] at h1
    rw [hlow] at h2
    have := h2.2
    norm_num [TANK_CAPACITY, LOW_FUEL_THRESHOLD] at h1 this
    linarith

/-- Claim C10, witness: a half-full tank at 50 kW stays within [0,100] and does not
grow. -/
theorem C10_fuel_range_flags_witness :
    (0 ≤ (fuelStep sampleFuelRequest).updated_fuel ∧
      (fuelStep sampleFuelRequest).updated_fuel ≤ TANK_CAPACITY) ∧
    (fuelStep sampleFuelRequest).updated_fuel ≤ sampleFuelRequest.current_fuel :=
  ⟨(C10_fuel_range_flags sampleFuelRequest (by norm_num [sampleFuelRequest])
      (by norm_num [sampleFuelRequest, TANK_CAPACITY])).1,
   (C10_fuel_range_flags sampleFuelRequest (by norm_num [sampleFuelRequest])
      (by norm_num [sampleFuelRequest, TANK_CAPACITY])).2.1⟩

/-- The decelerating block yields the speed minus `rate * dt` floored at zero when
the speed is positive, and leaves a non-positive speed as it is. -/
theorem decelerate_speed (rate dt : ℚ) (car : CarState) :
    (decelerate rate dt car).speed =
      if car.speed > 0 then max 0 (car.speed - rate * dt) else car.speed := by
  unfold decelerate
  by_cases h : car.speed > 0
  · simp only [h, if_true]
    split_ifs with h2
    · exact (max_eq_left (le_of_lt h2)).symm
    · exact (max_eq_right (le_of_not_lt h2)).symm
  · simp only [h, if_false]

/-- The decelerating block never yields a negative speed from a non-negative one. -/
theorem decelerate_nonneg (rate dt : ℚ) (car : CarState) (hs : 0 ≤ car.speed) :
    0 ≤ (decelerate rate dt car).speed := by
  rw [decelerate_speed]
  split_ifs
  · exact le_max_left _ _
  · exact hs

/-- Claim C12: with the engine off and dt > 0, a prior speed s > 0 becomes
max(0, s - 3*dt), which is strictly below s and not negative; a prior speed 0 stays
0; and the throttle is set to 0. -/
theorem C12_engine_off_deceleration (dt : ℚ) (car : CarState)
    (hdt : 0 < dt) (hoff : car.engine_on = false) :
    (0 < car.speed →
      (update_speed dt car).speed = max 0 (car.speed - 3 * dt) ∧
      (update_speed dt car).speed < car.speed ∧
      0 ≤ (update_speed dt car).speed) ∧
    (car.speed = 0 → (update_speed dt car).speed = 0) ∧
    (update_speed dt car).throttle = 0 := by
  have hsp : (update_speed dt car).speed = (decelerate ENGINE_OFF_DECEL dt car).speed := by
    unfold update_speed
    simp [hoff]
  have hth : (update_speed dt car).throttle = 0 := by
    unfold update_speed
    simp [hoff]
  refine ⟨?_, ?_, hth⟩
  · intro hs
    have e : (update_speed dt car).speed = max 0 (car.speed - 3 * dt) := by
      rw [hsp, decelerate_speed, if_pos hs]
      rfl
    refine ⟨e, ?_, ?_⟩
    · rw [e]
      apply max_lt hs
      linarith
    · rw [e]
      exact le_max_left _ _
  · intro h0
    rw [hsp, decelerate_speed, if_neg (by rw [h0]; exact lt_irrefl 0), h0]

/-- Claim C12, witness: 6 m/s with the engine off at dt = 0.016 becomes 5.952. -/
theorem C12_engine_off_deceleration_witness :
    (update_speed (16 / 1000) coastingOffState).speed =
      max 0 (coastingOffState.speed - 3 * (16 / 1000)) ∧
    (update_speed (16 / 1000) coastingOffState).speed < coastingOffState.speed ∧
    0 ≤ (update_speed (16 / 1000) coastingOffState).speed :=
  (C12_engine_off_deceleration (16 / 1000) coastingOffState (by norm_num) rfl).1
    (by norm_num [coastingOffState])

/-- The speed written by the accelerating branch. -/
theorem accelerate_speed (dt : ℚ) (car : CarState) :
    (accelerate dt car).speed =
      min (if car.reverse then MAX_REVERSE_SPEED else MAX_FORWARD_SPEED)
        ((car.speed + car.throttle * 10 * dt) * (1 - dt / 10)) := by
  unfold accelerate
  simp only
  have e : car.speed + car.throttle * 10 * dt -
      (ROLLING_RESISTANCE + DRAG_FORCE) * (car.speed + car.throttle * 10 * dt) / 5000 * dt =
      (car.speed + car.throttle * 10 * dt) * (1 - dt / 10) := by
    unfold ROLLING_RESISTANCE DRAG_FORCE
    ring
  rw [e]
  split_ifs with h1 h2 h2
  · exact (min_eq_left (le_of_lt h2)).symm
  · exact (min_eq_right (le_of_not_lt h2)).symm
  · exact (min_eq_left (le_of_lt h2)).symm
  · exact (min_eq_right (le_of_not_lt h2)).symm

/-- The three decelerating branches of `update_speed` (engine off, braking,
coasting) keep a non-negative speed non-negative for every dt: whenever the
accelerating branch is not the one taken, the returned speed is >= 0. -/
theorem update_speed_nonneg_unless_accelerating (dt : ℚ) (car : CarState)
    (hs : 0 ≤ car.speed)
    (hna : ¬ (car.engine_on = true ∧ ¬ (car.brake > 0) ∧ car.fuel > 0 ∧ car.throttle > 0)) :
    0 ≤ (update_speed dt car).speed := by
  unfold update_speed
  split_ifs with h1 h2 h3
  · exact decelerate_nonneg BRAKE_DECEL dt car hs
  · exact absurd ⟨h1, h2, h3.1, h3.2⟩ hna
  · exact decelerate_nonneg 2 dt car hs
  · show 0 ≤ (decelerate ENGINE_OFF_DECEL dt car).speed
    exact decelerate_nonneg ENGINE_OFF_DECEL dt car hs

/-- Claim C15, the code at a failing input: with dt = 20 > 0, prior speed 10 >= 0 and
throttle 1 in [0,1], engine on, no brake and fuel 100, `update_speed` takes the
accelerating branch, which subtracts the resistance without the floor at zero that
the three decelerating branches apply, and returns the speed -210 < 0. -/
theorem C15_accelerating_branch_negative :
    (0 : ℚ) < 20 ∧ 0 ≤ fullThrottleState.speed ∧
    0 ≤ fullThrottleState.throttle ∧ fullThrottleState.throttle ≤ 1 ∧
    update_speed 20 fullThrottleState = accelerate 20 fullThrottleState ∧
    (update_speed 20 fullThrottleState).speed = -210 ∧
    ¬ (0 ≤ (update_speed 20 fullThrottleState).speed) := by
  have h : update_speed 20 fullThrottleState = accelerate 20 fullThrottleState := by
    unfold update_speed
    norm_num [fullThrottleState, engineInit]
  have e : (update_speed 20 fullThrottleState).speed = -210 := by
    rw [h, accelerate_speed]
    norm_num [fullThrottleState, engineInit, MAX_FORWARD_SPEED]
  refine ⟨by norm_num, ?_, ?_, ?_, h, e, ?_⟩
  · norm_num [fullThrottleState]
  · norm_num [fullThrottleState]
  · norm_num [fullThrottleState]
  · rw [e]; norm_num

/-- The table has an entry, a non-negative one, for each of the gears 0..5. -/
theorem gearRatioAt_in_table (gear : Int) (h0 : 0 ≤ gear) (h5 : gear ≤ 5) :
    ∃ GR, gearRatioAt gear = some GR ∧ 0 ≤ GR := by
  have h : gear = 0 ∨ gear = 1 ∨ gear = 2 ∨ gear = 3 ∨ gear = 4 ∨ gear = 5 := by omega
  rcases h with h | h | h | h | h | h <;> subst h
  · exact ⟨0, rfl, by norm_num⟩
  · exact ⟨7 / 2, rfl, by norm_num⟩
  · exact ⟨2, rfl, by norm_num⟩
  · exact ⟨3 / 2, rfl, by norm_num⟩
  · exact ⟨1, rfl, by norm_num⟩
  · exact ⟨4 / 5, rfl, by norm_num⟩

/-- The clamped rpm lies between idle and maximum. -/
theorem physicsRpm_bounds (speed GR : ℚ) :
    IDLE_RPM ≤ physicsRpm speed GR ∧ physicsRpm speed GR ≤ MAX_RPM := by
  have hc : IDLE_RPM ≤ MAX_RPM := by norm_num [IDLE_RPM, MAX_RPM]
  unfold physicsRpm
  simp only
  split_ifs <;> constructor <;> linarith

/-- Between idle and maximum rpm the torque factor is the piecewise-linear curve and
lies in [0,1]. -/
theorem torqueFactor_bounds (rpm : ℚ) (hlo : IDLE_RPM ≤ rpm) (hhi : rpm ≤ MAX_RPM) :
    torqueFactor rpm = (if rpm ≤ 3500 then rpm / 3500 else (7000 - rpm) / 3500) ∧
    0 ≤ torqueFactor rpm ∧ torqueFactor rpm ≤ 1 := by
  unfold IDLE_RPM at hlo
  unfold MAX_RPM at hhi
  unfold torqueFactor MAX_RPM
  simp only
  by_cases h : rpm ≤ 3500
  · have h1 : ¬ (rpm / 3500 < 0) := by
      rw [not_lt]; apply div_nonneg <;> linarith
    simp only [h, h1, if_true, if_false]
    refine ⟨trivial, by apply div_nonneg <;> linarith, ?_⟩
    rw [div_le_one (by norm_num)]
    exact h
  · have h1 : ¬ ((7000 - rpm) / (7000 - 3500) < 0) := by
      rw [not_lt]; apply div_nonneg <;> linarith
    simp only [h, h1, if_false]
    refine ⟨by norm_num, by apply div_nonneg <;> linarith, ?_⟩
    rw [div_le_one (by norm_num)]
    linarith

/-- The clamped power is at most the maximum engine power, and non-negative for
non-negative torque and rpm. -/
theorem physicsPower_bounds (torque rpm : ℚ) (ht : 0 ≤ torque) (hr : 0 ≤ rpm) :
    0 ≤ physicsPower torque rpm ∧ physicsPower torque rpm ≤ MAX_ENGINE_POWER := by
  have hp : (0 : ℚ) ≤ PI := by norm_num [PI]
  have hm : (0 : ℚ) ≤ MAX_ENGINE_POWER := by norm_num [MAX_ENGINE_POWER]
  have h0 : 0 ≤ (torque * rpm * 2 * PI) / 60 := by positivity
  unfold physicsPower
  simp only
  split_ifs with h
  · exact ⟨hm, le_refl _⟩
  · exact ⟨h0, le_of_not_lt h⟩

/-- Claim C13: for every forward gear in {1..5}, engine on, throttle in [0,1] and
speed >= 0, `calculate_physics` returns a state whose rpm is in [900, 7000], whose
torque is 250 * torque factor * throttle with the torque factor in [0,1] given by
rpm/3500 up to 3500 rpm and (7000 - rpm)/3500 above, so that
0 <= torque <= 250 * throttle, and whose power is in [0, 150000]. -/
theorem C13_torque_curve_bounds (dt : ℚ) (car : CarState)
    (hon : car.engine_on = true) (hg1 : 1 ≤ car.gear) (hg5 : car.gear ≤ 5)
    (ht0 : 0 ≤ car.throttle) (_ht1 : car.throttle ≤ 1) (_hs : 0 ≤ car.speed) :
    ∃ out, calculate_physics dt car = some out ∧
      (900 ≤ out.rpm ∧ out.rpm ≤ 7000) ∧
      torqueFactor out.rpm =
        (if out.rpm ≤ 3500 then out.rpm / 3500 else (7000 - out.rpm) / 3500) ∧
      (0 ≤ torqueFactor out.rpm ∧ torqueFactor out.rpm ≤ 1) ∧
      out.torque = 250 * torqueFactor out.rpm * car.throttle ∧
      (0 ≤ out.torque ∧ out.torque ≤ 250 * car.throttle) ∧
      (0 ≤ out.power ∧ out.power ≤ 150000) := by
  obtain ⟨GR, hGR, _⟩ := gearRatioAt_in_table car.gear (by omega) hg5
  have hne : ¬ (¬ (car.engine_on = true) ∨ car.gear = 0) := by
    rw [not_or]; exact ⟨not_not.mpr hon, by omega⟩
  have hc : calculate_physics dt car =
      some { car with
        rpm := physicsRpm car.speed GR,
        torque := 250 * torqueFactor (physicsRpm car.speed GR) * car.throttle,
        power := physicsPower (250 * torqueFactor (physicsRpm car.speed GR) * car.throttle)
          (physicsRpm car.speed GR) } := by
    unfold calculate_physics
    rw [if_neg hne, hGR]
  obtain ⟨hr1, hr2⟩ := physicsRpm_bounds car.speed GR
  obtain ⟨hf, hf0, hf1⟩ := torqueFactor_bounds (physicsRpm car.speed GR) hr1 hr2
  have hr0 : (0 : ℚ) ≤ physicsRpm car.speed GR := by
    unfold IDLE_RPM at hr1; linarith
  have htq0 : 0 ≤ 250 * torqueFactor (physicsRpm car.speed GR) * car.throttle := by positivity
  have htq1 : 250 * torqueFactor (physicsRpm car.speed GR) * car.throttle ≤ 250 * car.throttle := by
    have : torqueFactor (physicsRpm car.speed GR) * car.throttle ≤ 1 * car.throttle :=
      mul_le_mul_of_nonneg_right hf1 ht0
    linarith
  obtain ⟨hp0, hp1⟩ := physicsPower_bounds _ _ htq0 hr0
  refine ⟨_, hc, ⟨hr1, hr2⟩, hf, ⟨hf0, hf1⟩, rfl, ⟨htq0, htq1⟩, ⟨hp0, hp1⟩⟩

/-- Claim C13, witness: second gear, full throttle, 10 m/s with the engine on. -/
theorem C13_torque_curve_bounds_witness :
    ∃ out, calculate_physics (16 / 1000) fullThrottleState = some out ∧
      (900 ≤ out.rpm ∧ out.rpm ≤ 7000) ∧
      torqueFactor out.rpm =
        (if out.rpm ≤ 3500 then out.rpm / 3500 else (7000 - out.rpm) / 3500) ∧
      (0 ≤ torqueFactor out.rpm ∧ torqueFactor out.rpm ≤ 1) ∧
      out.torque = 250 * torqueFactor out.rpm * fullThrottleState.throttle ∧
      (0 ≤ out.torque ∧ out.torque ≤ 250 * fullThrottleState.throttle) ∧
      (0 ≤ out.power ∧ out.power ≤ 150000) :=
  C13_torque_curve_bounds (16 / 1000) fullThrottleState rfl
    (by simp [fullThrottleState]) (by simp [fullThrottleState])
    (by norm_num [fullThrottleState]) (by norm_num [fullThrottleState])
    (by norm_num [fullThrottleState])

/-- Claim C14, counterexample: with the engine already registered on descriptor 4, a
second connection presenting the engine tag 1 on descriptor 5 is not closed; it
replaces the registered engine session. -/
theorem C14_counterexample :
    0 ≤ engineRegistered.engine_fd ∧
    duplicateEngine.client_id = CLIENT_ENGINE ∧
    (registerClient engineRegistered duplicateEngine).2 = none ∧
    (registerClient engineRegistered duplicateEngine).1.engine_fd = 5 ∧
    (registerClient engineRegistered duplicateEngine).1 ≠ engineRegistered := by
  refine ⟨by decide, rfl, rfl, rfl, ?_⟩
  decide

/-- Claim C14, amended: for every registration state and every accepted connection
whose role tag is not in {1,2,3}, the connection is closed and the three registered
sessions are left unchanged. -/
theorem C14_unknown_tag_rejected (reg : Registration) (c : Connection)
    (hfd : 0 ≤ c.client_fd)
    (htag : c.client_id ≠ 1 ∧ c.client_id ≠ 2 ∧ c.client_id ≠ 3) :
    registerClient reg c = (reg, some c.client_fd) := by
  obtain ⟨h1, h2, h3⟩ := htag
  have hfd2 : ¬ (c.client_fd < 0) := not_lt.mpr hfd
  unfold registerClient CLIENT_ENGINE CLIENT_TRANSMISSION CLIENT_FUEL
  simp only [hfd2, h1, h2, h3, if_false]
  split_ifs <;> rfl

/-- Claim C14, witness: tag 9 on descriptor 5 is closed, the engine stays on 4. -/
theorem C14_unknown_tag_rejected_witness :
    registerClient engineRegistered unknownTag = (engineRegistered, some 5) :=
  C14_unknown_tag_rejected engineRegistered unknownTag (by decide)
    (by simp [unknownTag])

/-- Claim C16, the code at a failing input: the reverse gear -1 is a valid gear,
the transmission model decides it for a reverse request at standstill, the
orchestrator stores it and forwards it in the next engine request, and with the
engine on `calculate_physics` then reads `gear_ratios[-1]`, outside the six-entry
table: the checked lookup, the physics step and the whole engine step take the
out-of-range branch. -/
theorem C16_reverse_gear_out_of_table :
    validGear (-1) ∧
    decidedGear transmissionInit 10 reverseEngageRequest = -1 ∧
    (engineRequest (mergeTransmission init_shared_memory
      (transmissionStep transmissionInit 10 reverseEngageRequest).1)).gear = -1 ∧
    reverseGearState.engine_on = true ∧ reverseGearState.gear = -1 ∧
    gearRatioAt (-1) = none ∧
    calculate_physics (16 / 1000) reverseGearState = none ∧
    engineStep cosAtZero sinAtZero engineOnReverse ERR (16 / 1000)
      (engineRequest (mergeTransmission init_shared_memory
        (transmissionStep transmissionInit 10 reverseEngageRequest).1)) = none := by
  have hd : (transmissionStep transmissionInit 10 reverseEngageRequest).1 =
      { client_id := 2, updated_gear := -1 } := by
    norm_num [transmissionStep, reverseEngageRequest, REVERSE_ENGAGE_SPEED, REVERSE_GEAR]
  have hc : calculate_physics (16 / 1000) reverseGearState = none := by
    unfold calculate_physics
    simp [reverseGearState, engineInit, gearRatioAt]
  refine ⟨by simp [validGear], ?_, ?_, rfl, rfl, rfl, hc, ?_⟩
  · unfold decidedGear; rw [hd]
  · rw [hd]; rfl
  · rw [hd]
    have hu : update_speed (16 / 1000)
        (handle_input ERR { engineOnReverse with car := { engineOnReverse.car with
          speed := 0, fuel := 100, gear := -1, heading := 0, x := 0, y := 0 } }).car =
        reverseGearState := by
      norm_num [update_speed, decelerate, handle_input, releaseKeys, adjustSteer, adjustPedals,
        pressKey, ERR, engineOnReverse, engineInit, reverseGearState]
    unfold engineStep
    simp only [engineRequest, mergeTransmission, init_shared_memory]
    rw [hu, hc]

/-- From its initial globals, with no key waiting, the engine model answers the
request built from the initial canonical state with the all-zero reply, whatever
the measured dt. -/
theorem engineStep_rest (cosF sinF : ℚ → ℚ) (dt : ℚ) :
    (engineStep cosF sinF engineInit ERR dt (engineRequest init_shared_memory)).map Prod.fst =
      some restReply := by
  have hi : handle_input ERR { engineInit with car := { engineInit.car with
      speed := 0, fuel := 100, gear := 0, heading := 0, x := 0, y := 0 } } =
      { engineInit with frame_count := 1 } := by
    norm_num [handle_input, releaseKeys, adjustSteer, adjustPedals, pressKey, ERR, engineInit]
  have hu : update_speed dt engineInit.car = engineInit.car := by
    norm_num [update_speed, decelerate, engineInit]
  have hc : calculate_physics dt engineInit.car = some engineInit.car := by
    norm_num [calculate_physics, engineInit]
  have hh : update_heading dt engineInit.car = engineInit.car := by
    norm_num [update_heading, engineInit]
  have hp : update_position cosF sinF dt engineInit.car = engineInit.car := by
    norm_num [update_position, engineInit]
  unfold engineStep
  simp only [engineRequest, init_shared_memory]
  rw [hi]
  simp only [hu, hc, hh, hp]
  simp [engineReply, engineInit, restReply]

/-- The orchestrator tick on the all-zero engine reply, with the transmission and
fuel models as peers, from the initial canonical state. -/
theorem tick_rest (ts : TransmissionState) (now : ℚ) :
    (tick (replyPeers restReply ts now) init_shared_memory).speed = 0 ∧
    (tick (replyPeers restReply ts now) init_shared_memory).rpm = 800 ∧
    (tick (replyPeers restReply ts now) init_shared_memory).torque = 0 ∧
    (tick (replyPeers restReply ts now) init_shared_memory).power = 0 ∧
    (tick (replyPeers restReply ts now) init_shared_memory).fuel = 100 := by
  have he : afterEngine (replyPeers restReply ts now) init_shared_memory =
      { init_shared_memory with rpm := 800 } := by
    simp only [afterEngine, replyPeers, Exchange.ok, mergeEngine, checkRpm_eq, checkSpeed_eq]
    norm_num [copyEngine, restReply, init_shared_memory, clamp, intToBool]
  have hf : (tick (replyPeers restReply ts now) init_shared_memory).fuel = 100 := by
    show (fuelStep (fuelRequest (afterTransmission (replyPeers restReply ts now)
      init_shared_memory))).updated_fuel = 100
    rw [fuelStep_updated]
    simp only [afterTransmission, he]
    norm_num [fuelRequest, mergeTransmission, init_shared_memory]
  refine ⟨?_, ?_, ?_, ?_, hf⟩
  all_goals simp only [tick, afterFuel, afterTransmission, he, mergeFuel, mergeTransmission]
  all_goals rfl

/-- The end-to-end tick of the engine-off scenario is the orchestrator tick on the
all-zero engine reply. -/
theorem systemTick_rest (cosF sinF : ℚ → ℚ) (dt : ℚ) (ts : TransmissionState) (now : ℚ) :
    systemTick cosF sinF engineInit ERR dt ts now init_shared_memory =
      some (tick (replyPeers restReply ts now) init_shared_memory) := by
  have h := engineStep_rest cosF sinF dt
  unfold systemTick
  cases hr : engineStep cosF sinF engineInit ERR dt (engineRequest init_shared_memory) with
  | none => rw [hr] at h; simp at h
  | some r =>
    rw [hr] at h
    simp only [Option.map_some', Option.some.injEq] at h
    simp only [Option.map_some', h]

/-- Claim C11, counterexample: in the engine-off scenario at dt = 0.016 the tick ends
with canonical rpm 800, not 0. -/
theorem C11_counterexample :
    (systemTick cosAtZero sinAtZero engineInit ERR (16 / 1000) transmissionInit 10
      init_shared_memory).map CarShared.rpm = some 800 ∧
    (systemTick cosAtZero sinAtZero engineInit ERR (16 / 1000) transmissionInit 10
      init_shared_memory).map CarShared.rpm ≠ some 0 := by
  have h : (systemTick cosAtZero sinAtZero engineInit ERR (16 / 1000) transmissionInit 10
      init_shared_memory).map CarShared.rpm = some 800 := by
    rw [systemTick_rest, Option.map_some', (tick_rest transmissionInit 10).2.1]
  refine ⟨h, ?_⟩
  rw [h]
  norm_num

/-- Claim C11, amended: from the initial canonical state, with the engine off and no
key input, one complete orchestrator tick at dt = 0.016 against the engine,
transmission and fuel models yields speed = 0, rpm = 800 (the engine replies rpm 0
and the orchestrator clamps it to its lower bound), torque = 0, power = 0 and
fuel = 100. -/
theorem C11_engine_off_tick (cosF sinF : ℚ → ℚ) (ts : TransmissionState) (now : ℚ) :
    ∃ car, systemTick cosF sinF engineInit ERR (16 / 1000) ts now init_shared_memory = some car ∧
      car.speed = 0 ∧ car.rpm = 800 ∧ car.torque = 0 ∧ car.power = 0 ∧ car.fuel = 100 :=
  ⟨_, systemTick_rest cosF sinF (16 / 1000) ts now, tick_rest ts now⟩

end CarSim
